import Mathlib

/-!
Verification development for the Smart_Attendance service (`src/app.py`).

The service is a small Flask application with four routes:
`POST /mark_attendance`, `GET /get_recent_attendance`,
`GET /attendance_images/<path:filename>` and `GET /`.

Shallow embedding choices:
* Raw image bytes are `List Nat`.
* The attendance table is a `List AttendanceRecord` (rows in insertion
  order; `INSERT` appends).
* The filesystem is an association list from component paths
  (`List String`, e.g. `["attendance_images", "ab12.jpg"]`) to file
  contents; a fresh write is prepended and lookup takes the first match,
  which models overwrite-on-open semantics.
* External collaborators (OpenCV decode, `face_recognition`, the
  liveness checker, base64 decoding, `uuid4().hex`, the clock, and the
  possibility that the SQLite insert raises) are fields of an `Env`
  record, so every theorem is stated for an arbitrary environment.
* HTTP responses are the inductive `Resp`: `ok` carries the JSON body of
  a 200 success, `err` carries the status code and the `error` string.
-/

namespace SmartAttendance

/-- One row of the `attendance` table (`id, name, timestamp, date, image_path`). -/
structure AttendanceRecord where
  id : String
  name : String
  timestamp : String
  date : String
  image_path : String
deriving DecidableEq

/-- Server state: the attendance table plus the filesystem.  Files saved by
the service live at component paths `["attendance_images", filename]`, but the
filesystem may also hold unrelated files (used to state traversal safety). -/
structure St where
  table : List AttendanceRecord
  fs : List (List String × List Nat)
deriving DecidableEq

/-- The JSON body of a `POST /mark_attendance` request: `image_base64` and the
optional `timestamp` field. -/
structure Req where
  image_base64 : Option String
  timestamp : Option String
deriving DecidableEq

/-- An opaque handle for a decoded OpenCV image (`numpy` array). -/
abbrev Img := Nat

/-- The external collaborators and nondeterministic inputs of one request:
`imdecode` is `cv2.imdecode` (returns `none` on undecodable bytes),
`cvtColor` is `cv2.cvtColor(..., COLOR_BGR2RGB)`, `face_locations` is
`face_recognition.face_locations`, `is_live_bytes` is the liveness checker
(possibly the fallback), `b64decode` is `base64.b64decode` (may raise),
`uuidFilenameHex`/`uuidIdHex` are the two `uuid4().hex` draws, `todayIso` is
`date.today().isoformat()`, `utcnowIso` is `datetime.utcnow().isoformat()`,
and `insertOutcome` is whether the SQLite insert raises. -/
structure Env where
  imdecode : List Nat → Option Img
  cvtColor : Img → Img
  face_locations : Img → List Nat
  is_live_bytes : List Nat → Bool
  b64decode : String → Except String (List Nat)
  uuidFilenameHex : String
  uuidIdHex : String
  todayIso : String
  utcnowIso : String
  insertOutcome : Except String Unit

/-- An HTTP response: a 200 success body or an error with status and message. -/
inductive Resp where
  | ok (timestamp : String) (image_path : String) (name : String)
  | err (status : Nat) (error : String)
deriving DecidableEq

/-- `has_face` from `app.py`: decode the bytes with OpenCV; an undecodable
image counts as "no face"; otherwise report whether at least one face is
detected on the RGB-converted image. -/
def has_face (env : Env) (image_bytes : List Nat) : Bool :=
  match env.imdecode image_bytes with
  | none => false
  | some img => decide (0 < (env.face_locations (env.cvtColor img)).length)

/-- `already_marked_today` from `app.py`: `SELECT COUNT(*) FROM attendance
WHERE name=? AND date=?` compared with 0.  (The Python default argument is
`name="Detected"`, but the only call site passes the name explicitly.) -/
def already_marked_today (s : St) (today : String) (name : String) : Bool :=
  decide (0 < (s.table.filter (fun r => r.name == name && r.date == today)).length)

/-- The route handler `mark_attendance` from `app.py`, returning the response
together with the post-request state.  Mirrors the source line by line:
400 on missing/empty image, base64 decode inside the `try` (failures become
500), 403 on no face, 403 on spoof, 409 on duplicate, then the file write
followed by the row insert (an insert failure becomes 500 with the file
already written), and the 200 body. -/
def mark_attendance (env : Env) (s : St) (req : Req) : Resp × St :=
  let timestamp := req.timestamp.getD env.utcnowIso
  match req.image_base64 with
  | none => (.err 400 "No image received", s)
  | some b64 =>
    if b64 = "" then (.err 400 "No image received", s)
    else
      match env.b64decode b64 with
      | .error e => (.err 500 e, s)
      | .ok image_bytes =>
        if has_face env image_bytes = false then
          (.err 403 "No face detected", s)
        else if env.is_live_bytes image_bytes = false then
          (.err 403 "Spoof detected", s)
        else
          let name := "Unknown Person"
          let today := env.todayIso
          if already_marked_today s today name then
            (.err 409 "Attendance already marked for today", s)
          else
            let filename := env.uuidFilenameHex ++ ".jpg"
            let image_path := "attendance_images/" ++ filename
            let s1 : St := { s with fs := (["attendance_images", filename], image_bytes) :: s.fs }
            match env.insertOutcome with
            | .error e => (.err 500 e, s1)
            | .ok _ =>
              let newRecord : AttendanceRecord :=
                ⟨env.uuidIdHex, name, timestamp, today, image_path⟩
              let s2 : St := { s1 with table := s1.table ++ [newRecord] }
              (.ok timestamp ("/attendance_images/" ++ filename) name, s2)

/-- One element of the `/get_recent_attendance` response array. -/
structure RecentEntry where
  person_text : String
  timestamp : String
  image_path : String
deriving DecidableEq

/-- The SQL `ORDER BY timestamp DESC` comparison: `a` comes no later than `b`
in descending order when `b`'s timestamp is at most `a`'s. -/
def tsGE (a b : AttendanceRecord) : Prop := b.timestamp ≤ a.timestamp

instance : DecidableRel tsGE :=
  fun a b => inferInstanceAs (Decidable (b.timestamp ≤ a.timestamp))

instance : IsTotal AttendanceRecord tsGE :=
  ⟨fun a b => le_total b.timestamp a.timestamp⟩

instance : IsTrans AttendanceRecord tsGE :=
  ⟨fun _ _ _ h1 h2 => le_trans h2 h1⟩

/-- The route handler `get_recent_attendance` from `app.py`:
`SELECT name, timestamp, image_path FROM attendance ORDER BY timestamp DESC
LIMIT 10`, each row reduced to `{person_text, timestamp, image_path}` with a
leading slash prepended to the stored path.  The handler performs no writes,
so the state is returned unchanged. -/
def get_recent_attendance (s : St) : List RecentEntry × St :=
  (((List.insertionSort tsGE s.table).take 10).map
      (fun r => ⟨r.name, r.timestamp, "/" ++ r.image_path⟩), s)

/-- A path component is harmless when it is neither empty nor `"."` nor
`".."`. -/
def goodComp (c : String) : Prop := c ≠ "" ∧ c ≠ "." ∧ c ≠ ".."

instance (c : String) : Decidable (goodComp c) :=
  inferInstanceAs (Decidable (_ ∧ _ ∧ _))

/-- One step of `posixpath.normpath` on a relative path, acting on the stack
of kept components with the most recent component first: empty and `"."`
components are dropped, `".."` pops the last kept component unless the stack
is empty or already ends in `".."`, and every other component is pushed. -/
def normStack (acc : List String) (c : String) : List String :=
  if c = "" ∨ c = "." then acc
  else if c = ".." then
    match acc with
    | [] => [".."]
    | t :: rest => if t = ".." then ".." :: t :: rest else rest
  else c :: acc

/-- Modelled from the spec: the spec requires that `serve_image` "must
sanitize the path segment before joining"; in `app.py` this is done by
Flask's `send_from_directory`, library code that is not under `src/`.
`normComps` is `posixpath.normpath` on a relative path, at the level of
`/`-separated components. -/
def normComps (cs : List String) : List String :=
  (cs.foldl normStack []).reverse

/-- Modelled from the spec: `werkzeug.security.safe_join`, the sanitization
used by Flask's `send_from_directory` (library code not under `src/`), at the
level of `/`-separated components.  An absolute filename (leading empty
component), or one whose normalized form is `".."` or starts with `"../"`,
is rejected; otherwise the normalized components are joined onto the store
directory.  (On POSIX, `_os_alt_seps` is empty, so no alternate-separator
check applies.) -/
def safe_join_comps (cs : List String) : Option (List String) :=
  if cs.head? = some "" then none
  else
    let n := normComps cs
    if n.head? = some ".." then none
    else some n

/-- First-match lookup of a component path in the filesystem. -/
def lookupFs : List (List String × List Nat) → List String → Option (List Nat)
  | [], _ => none
  | (p, b) :: t, q => if p = q then some b else lookupFs t q

/-- The route handler `serve_image` from `app.py`:
`send_from_directory(IMAGE_DIR, filename)` with `IMAGE_DIR =
"attendance_images"`.  The filename arrives as its `/`-separated components
(Flask's `<path:filename>` converter).  `none` is the 404 `NotFound`
response: the filename was rejected by sanitization or no such file exists;
`some b` is a 200 response with the file bytes. -/
def serve_image (s : St) (cs : List String) : Option (List Nat) :=
  match safe_join_comps cs with
  | none => none
  | some n => lookupFs s.fs ("attendance_images" :: n)

/-- The Python fallback defined in `app.py` when `live_detection` cannot be
imported: every byte string is reported live. -/
def is_live_bytes_fallback (image_bytes : List Nat) : Bool := true

/-- Invariant of the normalization stack (most recent component first): some
harmless components on top of a run of `".."` components at the bottom. -/
def StackOk (acc : List String) : Prop :=
  ∃ g k, acc = g ++ List.replicate k ".." ∧ ∀ x ∈ g, goodComp x

/-- A concrete state used by witnesses: one stored image plus a sensitive
file outside the store directory. -/
def sEx : St :=
  { table := []
    fs := [(["attendance_images", "aa.jpg"], [1, 2, 3]),
           (["secret", "root.txt"], [9])] }

/-- The empty initial state used by witnesses. -/
def stEmpty : St := { table := [], fs := [] }

/-- A concrete environment used by witnesses.  Payload "AA" decodes to bytes
`[1]`, a decodable live image with one face; "BB" decodes to bytes `[2]`,
which OpenCV cannot decode; "CC" decodes to bytes `[3]`, a decodable image
with a face that fails the liveness check. -/
def envEx : Env :=
  { imdecode := fun bs => if bs = [1] then some 0 else if bs = [3] then some 1 else none
    cvtColor := fun i => i
    face_locations := fun i => if i ≤ 1 then [7] else []
    is_live_bytes := fun bs => decide (bs = [1])
    b64decode := fun str =>
      if str = "AA" then .ok [1]
      else if str = "BB" then .ok [2]
      else if str = "CC" then .ok [3]
      else .error "Invalid base64-encoded string"
    uuidFilenameHex := "cafe01"
    uuidIdHex := "cafe02"
    todayIso := "2024-01-01"
    utcnowIso := "2024-01-01T09:00:00"
    insertOutcome := .ok () }

/-- `envEx` with the permissive import-failure fallback substituted for the
liveness checker. -/
def envFallback : Env := { envEx with is_live_bytes := is_live_bytes_fallback }

/-- A valid submission request with a client-supplied timestamp. -/
def reqOk : Req := { image_base64 := some "AA", timestamp := some "2024-01-01T10:00:00" }

/-- A request whose payload decodes to bytes OpenCV cannot decode. -/
def reqNoFace : Req := { image_base64 := some "BB", timestamp := none }

/-- A request whose payload has a face but fails the liveness check. -/
def reqSpoof : Req := { image_base64 := some "CC", timestamp := none }

/-- A request with no image payload. -/
def reqMissing : Req := { image_base64 := none, timestamp := none }

/-- A concrete three-record state used by the listing witness. -/
def sRecent : St :=
  { table :=
      [⟨"i1", "Unknown Person", "2024-01-01T08:00:00", "2024-01-01", "attendance_images/a.jpg"⟩,
       ⟨"i2", "Unknown Person", "2024-01-03T08:00:00", "2024-01-03", "attendance_images/b.jpg"⟩,
       ⟨"i3", "Unknown Person", "2024-01-02T08:00:00", "2024-01-02", "attendance_images/c.jpg"⟩]
    fs := [(["attendance_images", "a.jpg"], [1]),
           (["attendance_images", "b.jpg"], [2]),
           (["attendance_images", "c.jpg"], [3])] }

theorem stackOk_step (acc : List String) (c : String) (h : StackOk acc) :
    StackOk (normStack acc c) := by
  obtain ⟨g, k, hacc, hg⟩ := h
  by_cases h1 : c = "" ∨ c = "."
  · unfold normStack
    rw [if_pos h1]
    exact ⟨g, k, hacc, hg⟩
  · by_cases h2 : c = ".."
    · subst h2
      cases g with
      | nil =>
        cases k with
        | zero =>
          refine ⟨[], 1, ?_, by simp⟩
          simp at hacc
          simp [normStack, hacc]
        | succ k' =>
          refine ⟨[], k' + 2, ?_, by simp⟩
          simp only [List.nil_append] at hacc
          subst hacc
          simp [normStack, List.replicate_succ]
      | cons x g' =>
        have hx : goodComp x := hg x (by simp)
        refine ⟨g', k, ?_, fun y hy => hg y (by simp [hy])⟩
        subst hacc
        simp [normStack, hx.2.2]
    · refine ⟨c :: g, k, ?_, ?_⟩
      · subst hacc
        simp [normStack, h1, h2]
      · intro y hy
        rcases List.mem_cons.mp hy with rfl | hy'
        · exact ⟨fun hc => h1 (Or.inl hc), fun hc => h1 (Or.inr hc), h2⟩
        · exact hg y hy'

theorem stackOk_foldl (cs : List String) (acc : List String) (h : StackOk acc) :
    StackOk (cs.foldl normStack acc) := by
  induction cs generalizing acc with
  | nil => exact h
  | cons c cs ih => exact ih _ (stackOk_step acc c h)

/-- If the normalized component list does not start with `".."`, it contains
no `".."` (nor empty nor `"."`) component at all: `normpath` can only leave
`".."` components at the front of a relative path. -/
theorem normComps_good (cs : List String)
    (h : (normComps cs).head? ≠ some "..") :
    ∀ x ∈ normComps cs, goodComp x := by
  obtain ⟨g, k, hacc, hg⟩ := stackOk_foldl cs [] ⟨[], 0, rfl, by simp⟩
  unfold normComps at h ⊢
  rw [hacc] at h ⊢
  cases k with
  | zero =>
    intro x hx
    simp only [List.replicate_zero, List.append_nil] at hx
    exact hg x (List.mem_reverse.mp hx)
  | succ k' =>
    exfalso
    apply h
    rw [List.reverse_append, List.reverse_replicate]
    simp [List.replicate_succ]

theorem safe_join_comps_good (cs n : List String) (h : safe_join_comps cs = some n) :
    n = normComps cs ∧ ∀ x ∈ n, goodComp x := by
  unfold safe_join_comps at h
  by_cases h1 : cs.head? = some ""
  · rw [if_pos h1] at h
    cases h
  · rw [if_neg h1] at h
    by_cases h2 : (normComps cs).head? = some ".."
    · simp only [h2, if_pos] at h
      cases h
    · simp only [h2, if_neg, reduceCtorEq, not_false_iff] at h
      cases h
      exact ⟨rfl, normComps_good cs h2⟩

/-- C5: a filename that does not resolve to an existing file within the image
store directory yields `NotFound` (`none`); and any file that is returned
lies inside the `attendance_images` directory: its resolved path extends the
store directory with harmless components only — no `".."`, no empty and no
`"."` segment — so no path-traversal filename can reach a file outside the
store. -/
theorem serve_image_notFound_and_no_traversal (s : St) (cs : List String) :
    ((¬ ∃ n b, safe_join_comps cs = some n
        ∧ lookupFs s.fs ("attendance_images" :: n) = some b) →
      serve_image s cs = none)
    ∧ ∀ b, serve_image s cs = some b →
        ∃ n, safe_join_comps cs = some n
          ∧ (∀ x ∈ n, goodComp x)
          ∧ lookupFs s.fs ("attendance_images" :: n) = some b := by
  constructor
  · intro hno
    unfold serve_image
    cases hj : safe_join_comps cs with
    | none => rfl
    | some n =>
      cases hl : lookupFs s.fs ("attendance_images" :: n) with
      | none => exact hl
      | some b => exact absurd ⟨n, b, hj, hl⟩ hno
  · intro b hb
    unfold serve_image at hb
    cases hj : safe_join_comps cs with
    | none =>
      rw [hj] at hb
      cases hb
    | some n =>
      rw [hj] at hb
      exact ⟨n, rfl, (safe_join_comps_good cs n hj).2, hb⟩

/-- Witness for C5 at concrete inputs: a traversal filename `../secret/root.txt`
and an absent filename `missing.jpg` both yield `NotFound`, even though the
file `secret/root.txt` exists outside the store directory. -/
theorem serve_image_notFound_and_no_traversal_witness :
    serve_image sEx ["..", "secret", "root.txt"] = none
    ∧ serve_image sEx ["missing.jpg"] = none := by
  constructor
  · apply (serve_image_notFound_and_no_traversal sEx ["..", "secret", "root.txt"]).1
    rintro ⟨n, b, hj, -⟩
    have hev : safe_join_comps ["..", "secret", "root.txt"] = none := by decide
    rw [hev] at hj
    cases hj
  · apply (serve_image_notFound_and_no_traversal sEx ["missing.jpg"]).1
    rintro ⟨n, b, hj, hl⟩
    have hev : safe_join_comps ["missing.jpg"] = some ["missing.jpg"] := by decide
    rw [hev] at hj
    cases hj
    have hev2 : lookupFs sEx.fs ["attendance_images", "missing.jpg"] = none := by decide
    rw [hev2] at hl
    cases hl

/-- Complete case analysis of `mark_attendance`: every request falls into
exactly one of the seven source branches, with the response and the
post-state of each branch spelled out. -/
theorem mark_attendance_cases (env : Env) (s : St) (req : Req) :
    (mark_attendance env s req = (.err 400 "No image received", s)
      ∧ (req.image_base64 = none ∨ req.image_base64 = some ""))
  ∨ (∃ b e, req.image_base64 = some b ∧ b ≠ "" ∧ env.b64decode b = .error e
      ∧ mark_attendance env s req = (.err 500 e, s))
  ∨ (∃ b bytes, req.image_base64 = some b ∧ b ≠ "" ∧ env.b64decode b = .ok bytes
      ∧ has_face env bytes = false
      ∧ mark_attendance env s req = (.err 403 "No face detected", s))
  ∨ (∃ b bytes, req.image_base64 = some b ∧ b ≠ "" ∧ env.b64decode b = .ok bytes
      ∧ has_face env bytes = true ∧ env.is_live_bytes bytes = false
      ∧ mark_attendance env s req = (.err 403 "Spoof detected", s))
  ∨ (∃ b bytes, req.image_base64 = some b ∧ b ≠ "" ∧ env.b64decode b = .ok bytes
      ∧ has_face env bytes = true ∧ env.is_live_bytes bytes = true
      ∧ already_marked_today s env.todayIso "Unknown Person" = true
      ∧ mark_attendance env s req = (.err 409 "Attendance already marked for today", s))
  ∨ (∃ b bytes e, req.image_base64 = some b ∧ b ≠ "" ∧ env.b64decode b = .ok bytes
      ∧ has_face env bytes = true ∧ env.is_live_bytes bytes = true
      ∧ already_marked_today s env.todayIso "Unknown Person" = false
      ∧ env.insertOutcome = .error e
      ∧ mark_attendance env s req
          = (.err 500 e,
             { s with fs := (["attendance_images", env.uuidFilenameHex ++ ".jpg"], bytes) :: s.fs }))
  ∨ (∃ b bytes, req.image_base64 = some b ∧ b ≠ "" ∧ env.b64decode b = .ok bytes
      ∧ has_face env bytes = true ∧ env.is_live_bytes bytes = true
      ∧ already_marked_today s env.todayIso "Unknown Person" = false
      ∧ env.insertOutcome = .ok ()
      ∧ mark_attendance env s req
          = (.ok (req.timestamp.getD env.utcnowIso)
                 ("/attendance_images/" ++ (env.uuidFilenameHex ++ ".jpg")) "Unknown Person",
             { table := s.table
                 ++ [⟨env.uuidIdHex, "Unknown Person", req.timestamp.getD env.utcnowIso,
                      env.todayIso, "attendance_images/" ++ (env.uuidFilenameHex ++ ".jpg")⟩],
               fs := (["attendance_images", env.uuidFilenameHex ++ ".jpg"], bytes) :: s.fs })) := by
  cases hib : req.image_base64 with
  | none =>
    exact Or.inl ⟨by simp [mark_attendance, hib], Or.inl rfl⟩
  | some b =>
    by_cases hb : b = ""
    · exact Or.inl ⟨by simp [mark_attendance, hib, hb], Or.inr (by rw [hb])⟩
    · cases hdec : env.b64decode b with
      | error e =>
        exact Or.inr (Or.inl ⟨b, e, rfl, hb, hdec,
          by simp [mark_attendance, hib, hb, hdec]⟩)
      | ok bytes =>
        cases hface : has_face env bytes with
        | false =>
          exact Or.inr (Or.inr (Or.inl ⟨b, bytes, rfl, hb, hdec, hface,
            by simp [mark_attendance, hib, hb, hdec, hface]⟩))
        | true =>
          cases hlive : env.is_live_bytes bytes with
          | false =>
            exact Or.inr (Or.inr (Or.inr (Or.inl ⟨b, bytes, rfl, hb, hdec, hface, hlive,
              by simp [mark_attendance, hib, hb, hdec, hface, hlive]⟩)))
          | true =>
            cases hdup : already_marked_today s env.todayIso "Unknown Person" with
            | true =>
              exact Or.inr (Or.inr (Or.inr (Or.inr (Or.inl
                ⟨b, bytes, rfl, hb, hdec, hface, hlive, rfl,
                 by simp [mark_attendance, hib, hb, hdec, hface, hlive, hdup]⟩))))
            | false =>
              cases hins : env.insertOutcome with
              | error e =>
                exact Or.inr (Or.inr (Or.inr (Or.inr (Or.inr (Or.inl
                  ⟨b, bytes, e, rfl, hb, hdec, hface, hlive, rfl, rfl,
                   by simp [mark_attendance, hib, hb, hdec, hface, hlive, hdup, hins]⟩)))))
              | ok u =>
                cases u
                exact Or.inr (Or.inr (Or.inr (Or.inr (Or.inr (Or.inr
                  ⟨b, bytes, rfl, hb, hdec, hface, hlive, rfl, rfl,
                   by simp [mark_attendance, hib, hb, hdec, hface, hlive, hdup, hins]⟩)))))

/-- If a path is present in the filesystem, it is still present (possibly
with different bytes) after one more file is written. -/
theorem lookupFs_cons_of_some (x : List String × List Nat)
    (fs : List (List String × List Nat)) (q : List String) (b : List Nat)
    (h : lookupFs fs q = some b) : ∃ b2, lookupFs (x :: fs) q = some b2 := by
  obtain ⟨p, c⟩ := x
  by_cases hx : p = q
  · exact ⟨c, by simp [lookupFs, hx]⟩
  · exact ⟨b, by simp [lookupFs, hx, h]⟩

/-- A component of the shape `x ++ ".jpg"` is harmless: it is too long to be
empty, `"."` or `".."`. -/
theorem jpg_comp_good (x : String) : goodComp (x ++ ".jpg") := by
  have hlen : (x ++ ".jpg").length = x.length + 4 := by
    have h4 : (".jpg" : String).length = 4 := rfl
    rw [String.length_append, h4]
  refine ⟨fun h => ?_, fun h => ?_, fun h => ?_⟩
  · rw [h] at hlen
    have h0 : ("" : String).length = 0 := rfl
    rw [h0] at hlen
    omega
  · rw [h] at hlen
    have h1 : ("." : String).length = 1 := rfl
    rw [h1] at hlen
    omega
  · rw [h] at hlen
    have h2 : (".." : String).length = 2 := rfl
    rw [h2] at hlen
    omega

/-- C1: a submission whose payload decodes, contains a face and passes
liveness (and whose insert does not raise) fails with 409 `Conflict` when a
record with the placeholder name already exists for today's date, and
succeeds otherwise; and after a first successful submission, a second valid
submission on the same calendar date fails with 409 `Conflict`. -/
theorem mark_attendance_duplicate_gate
    (env env2 : Env) (s : St) (req req2 : Req) (b b2 : String) (bytes bytes2 : List Nat)
    (h1 : req.image_base64 = some b) (h2 : b ≠ "")
    (h3 : env.b64decode b = .ok bytes)
    (h4 : has_face env bytes = true) (h5 : env.is_live_bytes bytes = true)
    (h6 : env.insertOutcome = .ok ())
    (g1 : req2.image_base64 = some b2) (g2 : b2 ≠ "")
    (g3 : env2.b64decode b2 = .ok bytes2)
    (g4 : has_face env2 bytes2 = true) (g5 : env2.is_live_bytes bytes2 = true)
    (gtoday : env2.todayIso = env.todayIso) :
    (already_marked_today s env.todayIso "Unknown Person" = true →
        (mark_attendance env s req).1 = .err 409 "Attendance already marked for today")
    ∧ (already_marked_today s env.todayIso "Unknown Person" = false →
        (mark_attendance env s req).1
          = .ok (req.timestamp.getD env.utcnowIso)
                ("/attendance_images/" ++ (env.uuidFilenameHex ++ ".jpg")) "Unknown Person"
        ∧ (mark_attendance env2 (mark_attendance env s req).2 req2).1
          = .err 409 "Attendance already marked for today") := by
  constructor
  · intro hdup
    simp [mark_attendance, h1, h2, h3, h4, h5, hdup]
  · intro hdup
    refine ⟨by simp [mark_attendance, h1, h2, h3, h4, h5, hdup, h6], ?_⟩
    have hstate : (mark_attendance env s req).2.table
        = s.table ++ [⟨env.uuidIdHex, "Unknown Person", req.timestamp.getD env.utcnowIso,
                       env.todayIso, "attendance_images/" ++ (env.uuidFilenameHex ++ ".jpg")⟩] := by
      simp [mark_attendance, h1, h2, h3, h4, h5, hdup, h6]
    have hdup2 : already_marked_today (mark_attendance env s req).2 env2.todayIso
        "Unknown Person" = true := by
      unfold already_marked_today
      rw [hstate, gtoday]
      simp [List.filter_append]
    obtain ⟨s1, hs1⟩ : ∃ s1, (mark_attendance env s req).2 = s1 := ⟨_, rfl⟩
    rw [hs1] at hdup2 ⊢
    simp [mark_attendance, g1, g2, g3, g4, g5, hdup2]

/-- Witness for C1: with a concrete environment, a first submission on an
empty store succeeds and a second identical submission the same day is
rejected with 409. -/
theorem mark_attendance_duplicate_gate_witness :
    (mark_attendance envEx stEmpty reqOk).1
      = .ok "2024-01-01T10:00:00" "/attendance_images/cafe01.jpg" "Unknown Person"
    ∧ (mark_attendance envEx (mark_attendance envEx stEmpty reqOk).2 reqOk).1
      = .err 409 "Attendance already marked for today" := by
  have h := mark_attendance_duplicate_gate envEx envEx stEmpty reqOk reqOk
    "AA" "AA" [1] [1] rfl (by decide) rfl (by decide) (by decide) rfl
    rfl (by decide) rfl (by decide) (by decide) rfl
  exact h.2 (by decide)

/-- C2: a payload whose bytes are undecodable as an image, or decode to an
image with zero detected faces, is rejected with 403 `Forbidden("No face
detected")` — in particular never with a decode-level 500. -/
theorem undecodable_or_faceless_forbidden
    (env : Env) (s : St) (req : Req) (b : String) (bytes : List Nat)
    (h1 : req.image_base64 = some b) (h2 : b ≠ "")
    (h3 : env.b64decode b = .ok bytes)
    (h4 : env.imdecode bytes = none
      ∨ ∃ img, env.imdecode bytes = some img ∧ env.face_locations (env.cvtColor img) = []) :
    (mark_attendance env s req).1 = .err 403 "No face detected"
    ∧ ∀ e, (mark_attendance env s req).1 ≠ .err 500 e := by
  have hface : has_face env bytes = false := by
    rcases h4 with h | ⟨img, hi, hf⟩
    · simp [has_face, h]
    · simp [has_face, hi, hf]
  have hresp : (mark_attendance env s req).1 = .err 403 "No face detected" := by
    simp [mark_attendance, h1, h2, h3, hface]
  exact ⟨hresp, fun e he => by rw [hresp] at he; simp at he⟩

/-- Witness for C2: a concrete payload whose bytes OpenCV cannot decode is
answered with 403 "No face detected". -/
theorem undecodable_or_faceless_forbidden_witness :
    (mark_attendance envEx stEmpty reqNoFace).1 = .err 403 "No face detected" :=
  (undecodable_or_faceless_forbidden envEx stEmpty reqNoFace "BB" [2]
    rfl (by decide) rfl (Or.inl (by decide))).1

/-- C3: a payload that decodes with at least one face but fails the liveness
check is rejected with 403 `Forbidden("Spoof detected")`, and the state is
untouched: no file is written and no record is inserted. -/
theorem spoof_forbidden_no_side_effects
    (env : Env) (s : St) (req : Req) (b : String) (bytes : List Nat)
    (h1 : req.image_base64 = some b) (h2 : b ≠ "")
    (h3 : env.b64decode b = .ok bytes)
    (h4 : has_face env bytes = true)
    (h5 : env.is_live_bytes bytes = false) :
    mark_attendance env s req = (.err 403 "Spoof detected", s) := by
  simp [mark_attendance, h1, h2, h3, h4, h5]

/-- Witness for C3 at a concrete spoofed payload. -/
theorem spoof_forbidden_no_side_effects_witness :
    mark_attendance envEx stEmpty reqSpoof = (.err 403 "Spoof detected", stEmpty) :=
  spoof_forbidden_no_side_effects envEx stEmpty reqSpoof "CC" [3]
    rfl (by decide) rfl (by decide) (by decide)

/-- C4: `get_recent_attendance` returns at most 10 entries, in non-increasing
timestamp order, each entry the `{person_text, timestamp, image_path}`
projection of a stored record, and it performs no writes: the state is
returned unchanged. -/
theorem get_recent_attendance_spec (s : St) :
    (get_recent_attendance s).1.length ≤ 10
    ∧ (get_recent_attendance s).1.Pairwise
        (fun a b : RecentEntry => b.timestamp ≤ a.timestamp)
    ∧ (∀ e ∈ (get_recent_attendance s).1, ∃ r ∈ s.table,
        e = ⟨r.name, r.timestamp, "/" ++ r.image_path⟩)
    ∧ (get_recent_attendance s).2 = s := by
  refine ⟨?_, ?_, ?_, rfl⟩
  · simp [get_recent_attendance]
  · have hsorted : List.Sorted tsGE (List.insertionSort tsGE s.table) :=
      List.sorted_insertionSort tsGE s.table
    have htake : List.Pairwise tsGE ((List.insertionSort tsGE s.table).take 10) :=
      hsorted.sublist (List.take_sublist 10 _)
    exact htake.map _ (fun a b hab => hab)
  · intro e he
    simp only [get_recent_attendance] at he
    obtain ⟨r, hr, rfl⟩ := List.mem_map.mp he
    exact ⟨r, (List.perm_insertionSort tsGE s.table).subset (List.take_subset 10 _ hr), rfl⟩

/-- Witness for C4 at a concrete three-record state. -/
theorem get_recent_attendance_spec_witness :
    (get_recent_attendance sRecent).1.length ≤ 10
    ∧ (get_recent_attendance sRecent).1.Pairwise
        (fun a b : RecentEntry => b.timestamp ≤ a.timestamp)
    ∧ (get_recent_attendance sRecent).2 = sRecent := by
  obtain ⟨ha, hb, -, hd⟩ := get_recent_attendance_spec sRecent
  exact ⟨ha, hb, hd⟩

/-- C6: the image-file write precedes the row insert.  If every stored
record's `image_path` names a file present in the image store, the same holds
after any `mark_attendance` request; and the table either is unchanged or
grows by exactly one record whose `image_path` names a file present in the
store at the moment of insert. -/
theorem insert_implies_image_file_exists (env : Env) (s : St) (req : Req)
    (hInv : ∀ r ∈ s.table, ∃ f b, r.image_path = "attendance_images/" ++ f
        ∧ lookupFs s.fs ["attendance_images", f] = some b) :
    (∀ r ∈ (mark_attendance env s req).2.table,
        ∃ f b, r.image_path = "attendance_images/" ++ f
          ∧ lookupFs (mark_attendance env s req).2.fs ["attendance_images", f] = some b)
    ∧ ((mark_attendance env s req).2.table = s.table
        ∨ ∃ rcd, (mark_attendance env s req).2.table = s.table ++ [rcd]
            ∧ ∃ f b, rcd.image_path = "attendance_images/" ++ f
                ∧ lookupFs (mark_attendance env s req).2.fs ["attendance_images", f]
                    = some b) := by
  have hkeep : ∀ (x : List String × List Nat) (r : AttendanceRecord),
      (∃ f b, r.image_path = "attendance_images/" ++ f
        ∧ lookupFs s.fs ["attendance_images", f] = some b) →
      ∃ f b, r.image_path = "attendance_images/" ++ f
        ∧ lookupFs (x :: s.fs) ["attendance_images", f] = some b := by
    rintro x r ⟨f, b, hp, hl⟩
    obtain ⟨b2, hb2⟩ := lookupFs_cons_of_some x s.fs ["attendance_images", f] b hl
    exact ⟨f, b2, hp, hb2⟩
  rcases mark_attendance_cases env s req with
      ⟨heq, -⟩
    | ⟨b, e, -, -, -, heq⟩
    | ⟨b, bytes, -, -, -, -, heq⟩
    | ⟨b, bytes, -, -, -, -, -, heq⟩
    | ⟨b, bytes, -, -, -, -, -, -, heq⟩
    | ⟨b, bytes, e, -, -, -, -, -, -, -, heq⟩
    | ⟨b, bytes, -, -, -, -, -, -, -, heq⟩ <;> rw [heq]
  · exact ⟨hInv, Or.inl rfl⟩
  · exact ⟨hInv, Or.inl rfl⟩
  · exact ⟨hInv, Or.inl rfl⟩
  · exact ⟨hInv, Or.inl rfl⟩
  · exact ⟨hInv, Or.inl rfl⟩
  · exact ⟨fun r hr => hkeep _ r (hInv r hr), Or.inl rfl⟩
  · constructor
    · intro r hr
      rcases List.mem_append.mp hr with hold | hnew
      · exact hkeep _ r (hInv r hold)
      · have hr' : r = ⟨env.uuidIdHex, "Unknown Person", req.timestamp.getD env.utcnowIso,
            env.todayIso, "attendance_images/" ++ (env.uuidFilenameHex ++ ".jpg")⟩ := by
          simpa using hnew
        subst hr'
        exact ⟨env.uuidFilenameHex ++ ".jpg", bytes, rfl, by simp [lookupFs]⟩
    · refine Or.inr ⟨_, rfl, env.uuidFilenameHex ++ ".jpg", bytes, rfl, by simp [lookupFs]⟩

/-- Witness for C6: on the empty store, a concrete successful submission
inserts one record whose image file is present in the store. -/
theorem insert_implies_image_file_exists_witness :
    (mark_attendance envEx stEmpty reqOk).2.table = stEmpty.table
    ∨ ∃ rcd, (mark_attendance envEx stEmpty reqOk).2.table = stEmpty.table ++ [rcd]
        ∧ ∃ f b, rcd.image_path = "attendance_images/" ++ f
            ∧ lookupFs (mark_attendance envEx stEmpty reqOk).2.fs ["attendance_images", f]
                = some b :=
  (insert_implies_image_file_exists envEx stEmpty reqOk (by simp [stEmpty])).2

/-- C7: round-trip.  A successful submission responds with the URL
`/attendance_images/<filename>`, and serving that filename afterwards yields
exactly the base64-decoded bytes that were submitted. -/
theorem stored_image_round_trip
    (env : Env) (s : St) (req : Req) (b : String) (bytes : List Nat)
    (h1 : req.image_base64 = some b) (h2 : b ≠ "")
    (h3 : env.b64decode b = .ok bytes)
    (h4 : has_face env bytes = true) (h5 : env.is_live_bytes bytes = true)
    (h6 : already_marked_today s env.todayIso "Unknown Person" = false)
    (h7 : env.insertOutcome = .ok ()) :
    (mark_attendance env s req).1
      = .ok (req.timestamp.getD env.utcnowIso)
            ("/attendance_images/" ++ (env.uuidFilenameHex ++ ".jpg")) "Unknown Person"
    ∧ serve_image (mark_attendance env s req).2 [env.uuidFilenameHex ++ ".jpg"]
      = some bytes := by
  have hgood : goodComp (env.uuidFilenameHex ++ ".jpg") := jpg_comp_good env.uuidFilenameHex
  have hfs : (mark_attendance env s req).2.fs
      = (["attendance_images", env.uuidFilenameHex ++ ".jpg"], bytes) :: s.fs := by
    simp [mark_attendance, h1, h2, h3, h4, h5, h6, h7]
  refine ⟨by simp [mark_attendance, h1, h2, h3, h4, h5, h6, h7], ?_⟩
  have hns : normStack [] (env.uuidFilenameHex ++ ".jpg") = [env.uuidFilenameHex ++ ".jpg"] := by
    unfold normStack
    rw [if_neg (by rintro (h | h); exacts [hgood.1 h, hgood.2.1 h]), if_neg hgood.2.2]
  have hsj : safe_join_comps [env.uuidFilenameHex ++ ".jpg"]
      = some [env.uuidFilenameHex ++ ".jpg"] := by
    unfold safe_join_comps normComps
    rw [List.foldl_cons, List.foldl_nil, hns]
    rw [if_neg (by simp [hgood.1]), if_neg (by simp [hgood.2.2])]
    simp
  unfold serve_image
  rw [hsj, hfs]
  simp [lookupFs]

/-- Witness for C7: a concrete successful submission, after which the stored
image is served back byte-identical. -/
theorem stored_image_round_trip_witness :
    (mark_attendance envEx stEmpty reqOk).1
      = .ok "2024-01-01T10:00:00" "/attendance_images/cafe01.jpg" "Unknown Person"
    ∧ serve_image (mark_attendance envEx stEmpty reqOk).2 ["cafe01.jpg"] = some [1] :=
  stored_image_round_trip envEx stEmpty reqOk "AA" [1]
    rfl (by decide) rfl (by decide) (by decide) (by decide) rfl

/-- C8: a successful submission responds with `ok`, the client-supplied
timestamp when one was provided and the server-generated instant otherwise,
the image URL `/attendance_images/<filename>.jpg`, and the fixed name
`"Unknown Person"`. -/
theorem success_response_shape
    (env : Env) (s : St) (req : Req) (b : String) (bytes : List Nat)
    (h1 : req.image_base64 = some b) (h2 : b ≠ "")
    (h3 : env.b64decode b = .ok bytes)
    (h4 : has_face env bytes = true) (h5 : env.is_live_bytes bytes = true)
    (h6 : already_marked_today s env.todayIso "Unknown Person" = false)
    (h7 : env.insertOutcome = .ok ()) :
    (∀ ts, req.timestamp = some ts →
        (mark_attendance env s req).1
          = .ok ts ("/attendance_images/" ++ (env.uuidFilenameHex ++ ".jpg")) "Unknown Person")
    ∧ (req.timestamp = none →
        (mark_attendance env s req).1
          = .ok env.utcnowIso ("/attendance_images/" ++ (env.uuidFilenameHex ++ ".jpg"))
              "Unknown Person") := by
  constructor
  · intro ts hts
    simp [mark_attendance, h1, h2, h3, h4, h5, h6, h7, hts]
  · intro hts
    simp [mark_attendance, h1, h2, h3, h4, h5, h6, h7, hts]

/-- Witness for C8 at a concrete request carrying a client timestamp. -/
theorem success_response_shape_witness :
    (mark_attendance envEx stEmpty reqOk).1
      = .ok "2024-01-01T10:00:00" "/attendance_images/cafe01.jpg" "Unknown Person" :=
  (success_response_shape envEx stEmpty reqOk "AA" [1]
    rfl (by decide) rfl (by decide) (by decide) (by decide) rfl).1
    "2024-01-01T10:00:00" rfl

/-- C9: when the import-failure fallback is the liveness checker, it reports
live for every input, and consequently no submission is ever answered with
403 `Forbidden("Spoof detected")`. -/
theorem fallback_liveness_never_rejects (env : Env) (s : St) (req : Req)
    (h : env.is_live_bytes = is_live_bytes_fallback) :
    (∀ bs, is_live_bytes_fallback bs = true)
    ∧ (mark_attendance env s req).1 ≠ .err 403 "Spoof detected" := by
  refine ⟨fun bs => rfl, ?_⟩
  rcases mark_attendance_cases env s req with
      ⟨heq, -⟩
    | ⟨b, e, -, -, -, heq⟩
    | ⟨b, bytes, -, -, -, -, heq⟩
    | ⟨b, bytes, -, -, -, -, hlive, heq⟩
    | ⟨b, bytes, -, -, -, -, -, -, heq⟩
    | ⟨b, bytes, e, -, -, -, -, -, -, -, heq⟩
    | ⟨b, bytes, -, -, -, -, -, -, -, heq⟩
  · rw [heq]; simp
  · rw [heq]; simp
  · rw [heq]; simp
  · rw [h] at hlive
    simp [is_live_bytes_fallback] at hlive
  · rw [heq]; simp
  · rw [heq]; simp
  · rw [heq]; simp

/-- Witness for C9 in the fallback configuration, at a payload whose bytes
would fail `envEx`'s liveness check. -/
theorem fallback_liveness_never_rejects_witness :
    (mark_attendance envFallback stEmpty reqSpoof).1 ≠ .err 403 "Spoof detected" :=
  (fallback_liveness_never_rejects envFallback stEmpty reqSpoof rfl).2

/-- C10: whenever `mark_attendance` answers 400, 403 or 409, the state is
untouched: no file is written and no row is inserted.  (The 500 insert-failure
path, excluded here, does leave the freshly written file behind.) -/
theorem early_failure_preserves_state (env : Env) (s : St) (req : Req)
    (code : Nat) (msg : String)
    (h : (mark_attendance env s req).1 = .err code msg)
    (hc : code = 400 ∨ code = 403 ∨ code = 409) :
    (mark_attendance env s req).2 = s := by
  rcases mark_attendance_cases env s req with
      ⟨heq, -⟩
    | ⟨b, e, -, -, -, heq⟩
    | ⟨b, bytes, -, -, -, -, heq⟩
    | ⟨b, bytes, -, -, -, -, -, heq⟩
    | ⟨b, bytes, -, -, -, -, -, -, heq⟩
    | ⟨b, bytes, e, -, -, -, -, -, -, -, heq⟩
    | ⟨b, bytes, -, -, -, -, -, -, -, heq⟩
  · rw [heq]
  · rw [heq]
  · rw [heq]
  · rw [heq]
  · rw [heq]
  · rw [heq] at h
    simp only [Resp.err.injEq] at h
    rcases hc with hc | hc | hc <;> rw [hc] at h <;> exact absurd h.1 (by decide)
  · rw [heq] at h
    cases h

/-- Witness for C10: the missing-image 400 response leaves the empty state
unchanged. -/
theorem early_failure_preserves_state_witness :
    (mark_attendance envEx stEmpty reqMissing).2 = stEmpty :=
  early_failure_preserves_state envEx stEmpty reqMissing 400 "No image received"
    (by decide) (Or.inl rfl)

end SmartAttendance
